import Mathlib

/- Shallow embedding of the MemStorage geospatial engine
   (server memStorage: artifact store over a JS Map, an RBush spatial
   index modelled as a list of point items, circle queries with haversine
   distance, and zoom-dependent viewport grid clustering).
   JS numbers are modelled as real numbers; the nondeterministic inputs
   of createArtifact (randomUUID, current time) are explicit parameters. -/

namespace MapEngine

open Real

/-- Geographic point record (artifactSchema). -/
structure Artifact where
  id : String
  name : String
  category : String
  layer : String
  lat : ℝ
  lng : ℝ
  description : Option String
  metadata : Option String
  createdAt : String

/-- Insert payload: an artifact without the server-assigned id
(insertArtifactSchema); `layer` and `createdAt` may be absent. -/
structure InsertArtifact where
  name : String
  category : String
  layer : Option String
  lat : ℝ
  lng : ℝ
  description : Option String
  metadata : Option String
  createdAt : Option String

/-- Axis-aligned viewport rectangle. -/
structure Bounds where
  north : ℝ
  south : ℝ
  east : ℝ
  west : ℝ

/-- A latitude/longitude pair. -/
structure LatLng where
  lat : ℝ
  lng : ℝ

/-- Circle query shape: center plus radius in meters. -/
structure CircleSelection where
  center : LatLng
  radius : ℝ

/-- Layer registry record (layerSchema). -/
structure Layer where
  id : String
  name : String
  description : Option String
  source : Option String
  sourceDate : Option String
  artifactCount : Nat
  visible : Bool
  style : Option String
deriving DecidableEq

/-- Synthetic aggregate point produced by the viewport clusterer. -/
structure ClusterData where
  id : String
  lat : ℝ
  lng : ℝ
  count : Nat

/-- Result of a viewport query. -/
structure ViewportResponse where
  clusters : List ClusterData
  singles : List Artifact
  total : Nat
  truncated : Bool

/-- Item stored in the RBush spatial index: a degenerate box carrying its artifact. -/
structure RBushItem where
  minX : ℝ
  minY : ℝ
  maxX : ℝ
  maxY : ℝ
  artifact : Artifact

/-- The `artifact.layer || "default"` idiom: the empty string is falsy in JS. -/
def orDefault (s : String) : String :=
  if s = "" then "default" else s

/-- The `insertArtifact.layer || "default"` idiom on an optional field. -/
def layerOrDefault : Option String → String
  | none => "default"
  | some s => orDefault s

/-- Propositional filter keeping elements satisfying `p`, in order
(the JS `Array.prototype.filter`). -/
def filterP {α : Type} (p : α → Prop) [DecidablePred p] : List α → List α
  | [] => []
  | a :: l => if p a then a :: filterP p l else filterP p l

/-- JS `Map.get`: value of the first entry with the given key. -/
def mapGet {α : Type} : List (String × α) → String → Option α
  | [], _ => none
  | (k', v) :: rest, k => if k' = k then some v else mapGet rest k

/-- JS `Map.set`: replace the value in place if the key exists, else append. -/
def mapSet {α : Type} : List (String × α) → String → α → List (String × α)
  | [], k, v => [(k, v)]
  | (k', v') :: rest, k, v =>
    if k' = k then (k, v) :: rest else (k', v') :: mapSet rest k v

/-- JS `Map.delete`: remove the entry with the given key. -/
def mapDelete {α : Type} : List (String × α) → String → List (String × α)
  | [], _ => []
  | (k', v') :: rest, k => if k' = k then rest else (k', v') :: mapDelete rest k

/-- State of a `MemStorage` instance: the id-keyed artifact map, the spatial
index contents, and the id-keyed layer registry. -/
structure StoreState where
  artifacts : List (String × Artifact)
  spatialIndex : List RBushItem
  layers : List (String × Layer)

/-- The point index item built for an artifact (`minX = maxX = lng`, `minY = maxY = lat`). -/
def mkItem (a : Artifact) : RBushItem :=
  { minX := a.lng, minY := a.lat, maxX := a.lng, maxY := a.lat, artifact := a }

/-- `buildSpatialIndex`: the index items bulk-loaded from the artifact map values. -/
def buildSpatialIndexItems (artifacts : List (String × Artifact)) : List RBushItem :=
  artifacts.map (fun e => mkItem e.2)

/-- RBush `search`: every indexed item whose box intersects the closed query box. -/
noncomputable def searchBBox (index : List RBushItem)
    (minX minY maxX maxY : ℝ) : List RBushItem :=
  filterP (fun it =>
    it.minX ≤ maxX ∧ it.minY ≤ maxY ∧ minX ≤ it.maxX ∧ minY ≤ it.maxY) index

/-- The `layers?.length` guarded filter applied by every query method. -/
def applyLayerFilter (layers : Option (List String)) (as : List Artifact) :
    List Artifact :=
  match layers with
  | none => as
  | some ls => if ls.length ≠ 0 then filterP (fun a => orDefault a.layer ∈ ls) as else as

/-- The layers created by the `MemStorage` constructor. -/
def utilityPocLayer : Layer :=
  { id := "utility-poc", name := "CT Utility POC",
    description := some "Connecticut utility infrastructure seed data",
    source := some "generated", sourceDate := none,
    artifactCount := 0, visible := true, style := none }

/-- The second layer created by the `MemStorage` constructor. -/
def eversourceLayer : Layer :=
  { id := "eversource-substations", name := "Eversource Substations",
    description := some "HIFLD transmission substations in Eversource territory (CT/MA/NH)",
    source := some "HIFLD/ORNL", sourceDate := none,
    artifactCount := 0, visible := true, style := none }

/-- A fresh `MemStorage(seedData = false)`: empty maps plus the two seed layers. -/
def emptyStore : StoreState :=
  { artifacts := [],
    spatialIndex := [],
    layers := [("utility-poc", utilityPocLayer),
               ("eversource-substations", eversourceLayer)] }

/-- `getAllArtifacts`. -/
def getAllArtifacts (s : StoreState) (layers : Option (List String)) : List Artifact :=
  applyLayerFilter layers (s.artifacts.map Prod.snd)

/-- `getArtifact`. -/
def getArtifact (s : StoreState) (id : String) : Option Artifact :=
  mapGet s.artifacts id

/-- `getArtifactsInBounds`. -/
noncomputable def getArtifactsInBounds (s : StoreState) (bounds : Bounds)
    (layers : Option (List String)) : List Artifact :=
  applyLayerFilter layers
    ((searchBBox s.spatialIndex bounds.west bounds.south bounds.east bounds.north).map
      (fun it => it.artifact))

/-- `getLayer`. -/
def getLayer (s : StoreState) (id : String) : Option Layer :=
  mapGet s.layers id

/-- `createArtifact`, with the generated uuid and the current time as explicit
inputs; returns the artifact together with the updated store. -/
def createArtifact (s : StoreState) (ins : InsertArtifact) (id now : String) :
    Artifact × StoreState :=
  let artifact : Artifact :=
    { id := id, name := ins.name, category := ins.category,
      layer := layerOrDefault ins.layer,
      lat := ins.lat, lng := ins.lng,
      description := ins.description, metadata := ins.metadata,
      createdAt := now }
  let layers' :=
    match mapGet s.layers artifact.layer with
    | some l => mapSet s.layers artifact.layer
        { l with artifactCount := l.artifactCount + 1 }
    | none => s.layers
  (artifact,
    { artifacts := mapSet s.artifacts id artifact,
      spatialIndex := s.spatialIndex ++ [mkItem artifact],
      layers := layers' })

/-- `deleteLayer`: drop the layer's artifacts, rebuild the index from the
remaining artifacts, remove the layer record. -/
def deleteLayer (s : StoreState) (id : String) : StoreState :=
  let remaining := filterP (fun e : String × Artifact => ¬ e.2.layer = id) s.artifacts
  { artifacts := remaining,
    spatialIndex := buildSpatialIndexItems remaining,
    layers := mapDelete s.layers id }

/-- Degrees to radians (`toRad`). -/
noncomputable def toRad (deg : ℝ) : ℝ :=
  deg * Real.pi / 180

/-- The JS `Math.atan2(y, x)` on real inputs (signed zeros aside). -/
noncomputable def atan2 (y x : ℝ) : ℝ :=
  if 0 < x then Real.arctan (y / x)
  else if x < 0 then
    (if 0 ≤ y then Real.arctan (y / x) + Real.pi else Real.arctan (y / x) - Real.pi)
  else
    (if 0 < y then Real.pi / 2 else if y < 0 then -(Real.pi / 2) else 0)

/-- `haversineDistance`: great-circle distance in meters, mean radius 6,371,000 m. -/
noncomputable def haversineDistance (lat1 lng1 lat2 lng2 : ℝ) : ℝ :=
  let R : ℝ := 6371000
  let dLat := toRad (lat2 - lat1)
  let dLng := toRad (lng2 - lng1)
  let a := Real.sin (dLat / 2) * Real.sin (dLat / 2) +
    Real.cos (toRad lat1) * Real.cos (toRad lat2) *
      (Real.sin (dLng / 2) * Real.sin (dLng / 2))
  let c := 2 * atan2 (Real.sqrt a) (Real.sqrt (1 - a))
  R * c

/-- `getArtifactsInCircle`: bbox prefilter with half-width `radius / 111320`
degrees, then the exact haversine filter, then the layer filter. -/
noncomputable def getArtifactsInCircle (s : StoreState) (circle : CircleSelection)
    (layers : Option (List String)) : List Artifact :=
  let radiusInDegrees := circle.radius / 111320
  let candidateItems := searchBBox s.spatialIndex
    (circle.center.lng - radiusInDegrees) (circle.center.lat - radiusInDegrees)
    (circle.center.lng + radiusInDegrees) (circle.center.lat + radiusInDegrees)
  let artifacts := filterP
    (fun a => haversineDistance circle.center.lat circle.center.lng a.lat a.lng ≤
      circle.radius)
    (candidateItems.map (fun it => it.artifact))
  applyLayerFilter layers artifacts

/-- `getClusterGridSize`: grid cell edge length in degrees for a zoom level. -/
noncomputable def getClusterGridSize (zoom : ℝ) : ℝ :=
  if zoom ≤ 6 then 2
  else if zoom ≤ 8 then 1
  else if zoom ≤ 10 then 0.5
  else if zoom ≤ 12 then 0.1
  else 0.05

/-- The grid cell key string of an artifact: floor of lng and of lat over the
grid size, rendered as the template string `cellX:cellY`. -/
noncomputable def cellKey (gridSize : ℝ) (a : Artifact) : String :=
  toString ⌊a.lng / gridSize⌋ ++ ":" ++ toString ⌊a.lat / gridSize⌋

/-- Push one artifact onto its cell of the string-keyed grid map, appending a
fresh cell at the end on first reference (JS `Map` insertion order). -/
def gridAdd : List (String × List Artifact) → String → Artifact →
    List (String × List Artifact)
  | [], k, a => [(k, [a])]
  | (k', as) :: rest, k, a =>
    if k' = k then (k', as ++ [a]) :: rest else (k', as) :: gridAdd rest k a

/-- Group the matched artifacts into grid cells, in encounter order. -/
noncomputable def buildGrid (gridSize : ℝ) (artifacts : List Artifact) :
    List (String × List Artifact) :=
  artifacts.foldl (fun g a => gridAdd g (cellKey gridSize a) a) []

/-- The `reduce`-style sum of a projected field, starting at 0. -/
noncomputable def sumBy (f : Artifact → ℝ) (as : List Artifact) : ℝ :=
  as.foldl (fun sum a => sum + f a) 0

/-- The cluster emitted for one grid cell. -/
noncomputable def mkCluster (key : String) (cellArtifacts : List Artifact) :
    ClusterData :=
  { id := "cluster-" ++ key,
    lat := sumBy Artifact.lat cellArtifacts / cellArtifacts.length,
    lng := sumBy Artifact.lng cellArtifacts / cellArtifacts.length,
    count := cellArtifacts.length }

/-- One `grid.forEach` pass: cells with more than 3 members become clusters,
smaller cells spill their members into singles. -/
noncomputable def splitCells (grid : List (String × List Artifact)) :
    List ClusterData × List Artifact :=
  grid.foldl
    (fun acc cell =>
      if 3 < cell.2.length then (acc.1 ++ [mkCluster cell.1 cell.2], acc.2)
      else (acc.1, acc.2 ++ cell.2))
    ([], [])

/-- `getViewportData`: bounds query, high-zoom passthrough, grid clustering,
and the cluster-first truncation policy. -/
noncomputable def getViewportData (s : StoreState) (bounds : Bounds) (zoom : ℝ)
    (limit : Nat) (layers : Option (List String)) : ViewportResponse :=
  let artifacts := getArtifactsInBounds s bounds layers
  let total := artifacts.length
  if 13 ≤ zoom then
    { clusters := [],
      singles := if limit < artifacts.length then artifacts.take limit else artifacts,
      total := total,
      truncated := decide (limit < artifacts.length) }
  else
    let gridSize := getClusterGridSize zoom
    let cs := splitCells (buildGrid gridSize artifacts)
    if limit < cs.1.length + cs.2.length then
      if cs.1.length ≤ limit then
        { clusters := cs.1, singles := cs.2.take (limit - cs.1.length),
          total := total, truncated := true }
      else
        { clusters := cs.1.take limit, singles := [],
          total := total, truncated := true }
    else
      { clusters := cs.1, singles := cs.2, total := total, truncated := false }

/-! ### Basic lemmas about the list and map models -/

theorem mem_filterP {α : Type} {p : α → Prop} [DecidablePred p] {l : List α} {a : α} :
    a ∈ filterP p l ↔ a ∈ l ∧ p a := by
  induction l with
  | nil => simp [filterP]
  | cons b t ih =>
    by_cases hb : p b
    · simp only [filterP, if_pos hb, List.mem_cons, ih]
      constructor
      · rintro (rfl | ⟨ht, hp⟩)
        · exact ⟨Or.inl rfl, hb⟩
        · exact ⟨Or.inr ht, hp⟩
      · rintro ⟨rfl | ht, hp⟩
        · exact Or.inl rfl
        · exact Or.inr ⟨ht, hp⟩
    · simp only [filterP, if_neg hb, List.mem_cons, ih]
      constructor
      · rintro ⟨ht, hp⟩
        exact ⟨Or.inr ht, hp⟩
      · rintro ⟨rfl | ht, hp⟩
        · exact absurd hp hb
        · exact ⟨ht, hp⟩

theorem filterP_append {α : Type} (p : α → Prop) [DecidablePred p] (l₁ l₂ : List α) :
    filterP p (l₁ ++ l₂) = filterP p l₁ ++ filterP p l₂ := by
  induction l₁ with
  | nil => simp [filterP]
  | cons b t ih =>
    by_cases hb : p b <;> simp [filterP, hb, ih]

theorem filterP_map {α β : Type} (f : α → β) (p : β → Prop) [DecidablePred p]
    (l : List α) :
    filterP p (l.map f) = (filterP (fun a => p (f a)) l).map f := by
  induction l with
  | nil => simp [filterP]
  | cons b t ih =>
    by_cases hb : p (f b) <;> simp [filterP, hb, ih]

theorem map_filterP {α β : Type} (f : α → β) (p : α → Prop) [DecidablePred p]
    (q : β → Prop) [DecidablePred q] (l : List α)
    (hpq : ∀ a, p a ↔ q (f a)) :
    (filterP p l).map f = filterP q (l.map f) := by
  induction l with
  | nil => simp [filterP]
  | cons b t ih =>
    by_cases hb : p b
    · simp [filterP, hb, (hpq b).mp hb, ih]
    · have : ¬ q (f b) := fun h => hb ((hpq b).mpr h)
      simp [filterP, hb, this, ih]

theorem mapGet_mapSet_self {α : Type} (m : List (String × α)) (k : String) (v : α) :
    mapGet (mapSet m k v) k = some v := by
  induction m with
  | nil => simp [mapSet, mapGet]
  | cons e rest ih =>
    by_cases h : e.1 = k
    · simp [mapSet, h, mapGet]
    · simp [mapSet, h, mapGet, ih]

theorem mapGet_mapSet_of_ne {α : Type} (m : List (String × α)) (k : String) (v : α)
    (k' : String) (h : k ≠ k') :
    mapGet (mapSet m k v) k' = mapGet m k' := by
  induction m with
  | nil => simp [mapSet, mapGet, h]
  | cons e rest ih =>
    by_cases he : e.1 = k
    · simp [mapSet, he, mapGet, h]
    · simp [mapSet, he, mapGet, ih]

theorem mapGet_eq_none_of_not_mem {α : Type} (m : List (String × α)) (k : String)
    (h : k ∉ m.map Prod.fst) : mapGet m k = none := by
  induction m with
  | nil => simp [mapGet]
  | cons e rest ih =>
    simp only [List.map_cons, List.mem_cons] at h
    push_neg at h
    have h1 : e.1 ≠ k := fun hk => h.1 hk.symm
    simp [mapGet, h1, ih h.2]

theorem mapGet_mapDelete_self {α : Type} (m : List (String × α)) (k : String)
    (h : (m.map Prod.fst).Nodup) : mapGet (mapDelete m k) k = none := by
  induction m with
  | nil => simp [mapDelete, mapGet]
  | cons e rest ih =>
    simp only [List.map_cons, List.nodup_cons] at h
    by_cases he : e.1 = k
    · subst he
      simp only [mapDelete, if_pos rfl]
      exact mapGet_eq_none_of_not_mem rest e.1 h.1
    · simp [mapDelete, he, mapGet, ih h.2]

theorem mapGet_mapDelete_of_ne {α : Type} (m : List (String × α)) (k k' : String)
    (h : k' ≠ k) : mapGet (mapDelete m k) k' = mapGet m k' := by
  induction m with
  | nil => simp [mapDelete, mapGet]
  | cons e rest ih =>
    by_cases he : e.1 = k
    · have hkk' : ¬ (k = k') := fun hk => h hk.symm
      simp [mapDelete, he, mapGet, hkk']
    · by_cases he' : e.1 = k'
      · simp [mapDelete, mapGet, he, he', h]
      · simp [mapDelete, he, mapGet, he', ih]

/-! ### Concrete inputs used by witnesses and counterexamples -/

/-- An insert input that supplies both a layer and a createdAt. -/
def insC6 : InsertArtifact :=
  { name := "Hartford Substation", category := "substation",
    layer := some "utility-poc", lat := 41.5, lng := -72.7,
    description := none, metadata := none,
    createdAt := some "2020-01-01T00:00:00.000Z" }

/-- An insert input whose layer id has no record in the registry. -/
def insC7 : InsertArtifact :=
  { name := "Pad-Mount Transformer", category := "transformer",
    layer := some "brand-new-layer", lat := 41.6, lng := -72.8,
    description := none, metadata := none, createdAt := none }

/-- An insert input at the origin with no layer. -/
def insC8 : InsertArtifact :=
  { name := "Smart Meter", category := "meter",
    layer := none, lat := 0, lng := 0,
    description := none, metadata := none, createdAt := none }

/-! ### C6: layer defaulting and createdAt stamping in createArtifact -/

/-- C6 counterexample: inserting `insC6`, which carries
createdAt = 2020-01-01T00:00:00.000Z, at time 2024-06-01T00:00:00.000Z yields
an artifact whose createdAt is not the supplied value — the caller-supplied
createdAt is overwritten, contrary to the claim. -/
theorem createArtifact_overwrites_suppliedCreatedAt :
    insC6.createdAt = some "2020-01-01T00:00:00.000Z" ∧
    (createArtifact emptyStore insC6 "id-0" "2024-06-01T00:00:00.000Z").1.createdAt ≠
      "2020-01-01T00:00:00.000Z" := by
  refine ⟨rfl, ?_⟩
  show "2024-06-01T00:00:00.000Z" ≠ "2020-01-01T00:00:00.000Z"
  decide

/-- C6 (amended): the artifact returned by createArtifact has layer equal to a
supplied non-empty layer and "default" when none is supplied, while createdAt
is always the insertion time — any caller-supplied createdAt is ignored. -/
theorem createArtifact_layer_and_createdAt (s : StoreState) (ins : InsertArtifact)
    (id now : String) :
    (∀ l, ins.layer = some l → l ≠ "" →
      (createArtifact s ins id now).1.layer = l) ∧
    (ins.layer = none → (createArtifact s ins id now).1.layer = "default") ∧
    (createArtifact s ins id now).1.createdAt = now := by
  refine ⟨?_, ?_, rfl⟩
  · intro l hl hne
    show layerOrDefault ins.layer = l
    rw [hl]
    simp [layerOrDefault, orDefault, hne]
  · intro hl
    show layerOrDefault ins.layer = "default"
    rw [hl]
    rfl

/-- Witness for the amended C6 at a concrete input: the supplied layer
"utility-poc" is kept and createdAt becomes the insertion time. -/
theorem createArtifact_layer_and_createdAt_witness :
    (createArtifact emptyStore insC6 "id-0" "2024-06-01T00:00:00.000Z").1.layer =
      "utility-poc" ∧
    (createArtifact emptyStore insC6 "id-0" "2024-06-01T00:00:00.000Z").1.createdAt =
      "2024-06-01T00:00:00.000Z" :=
  ⟨(createArtifact_layer_and_createdAt emptyStore insC6 "id-0"
      "2024-06-01T00:00:00.000Z").1 "utility-poc" rfl (by decide),
   (createArtifact_layer_and_createdAt emptyStore insC6 "id-0"
      "2024-06-01T00:00:00.000Z").2.2⟩

/-! ### C7: layer bookkeeping in createArtifact -/

/-- C7 counterexample: inserting an artifact whose layer id
"brand-new-layer" has no registry record creates no record for it — contrary
to the claim that a record is created on first reference. -/
theorem createArtifact_no_implicit_layerRecord :
    insC7.layer = some "brand-new-layer" ∧
    getLayer (createArtifact emptyStore insC7 "id-1" "2024-06-01T00:00:00.000Z").2
      "brand-new-layer" = none := by
  refine ⟨rfl, ?_⟩
  simp [getLayer, createArtifact, emptyStore, insC7, layerOrDefault, orDefault, mapGet]

/-- C7 (amended): createArtifact increments artifactCount of the artifact's
layer when a registry record for it exists (other records untouched); when no
record exists, the registry is left unchanged — no record is created. -/
theorem createArtifact_layerCount (s : StoreState) (ins : InsertArtifact)
    (id now : String) :
    (∀ l, mapGet s.layers (layerOrDefault ins.layer) = some l →
      mapGet (createArtifact s ins id now).2.layers (layerOrDefault ins.layer) =
        some { l with artifactCount := l.artifactCount + 1 } ∧
      ∀ y, y ≠ layerOrDefault ins.layer →
        mapGet (createArtifact s ins id now).2.layers y = mapGet s.layers y) ∧
    (mapGet s.layers (layerOrDefault ins.layer) = none →
      (createArtifact s ins id now).2.layers = s.layers) := by
  constructor
  · intro l hl
    constructor
    · show mapGet
        (match mapGet s.layers (layerOrDefault ins.layer) with
         | some l => mapSet s.layers (layerOrDefault ins.layer)
            { l with artifactCount := l.artifactCount + 1 }
         | none => s.layers) (layerOrDefault ins.layer) = _
      rw [hl]
      exact mapGet_mapSet_self _ _ _
    · intro y hy
      show mapGet
        (match mapGet s.layers (layerOrDefault ins.layer) with
         | some l => mapSet s.layers (layerOrDefault ins.layer)
            { l with artifactCount := l.artifactCount + 1 }
         | none => s.layers) y = _
      rw [hl]
      exact mapGet_mapSet_of_ne _ _ _ _ (fun h => hy h.symm)
  · intro hl
    show (match mapGet s.layers (layerOrDefault ins.layer) with
         | some l => mapSet s.layers (layerOrDefault ins.layer)
            { l with artifactCount := l.artifactCount + 1 }
         | none => s.layers) = s.layers
    rw [hl]

/-- Witness for the amended C7: inserting into the existing layer
"utility-poc" bumps its artifactCount from 0 to 1. -/
theorem createArtifact_layerCount_witness :
    mapGet (createArtifact emptyStore insC6 "id-0" "2024-06-01T00:00:00.000Z").2.layers
      "utility-poc" =
      some { utilityPocLayer with artifactCount := 1 } :=
  ((createArtifact_layerCount emptyStore insC6 "id-0"
      "2024-06-01T00:00:00.000Z").1 utilityPocLayer (by rfl)).1

/-! ### C9: lookups of missing ids -/

/-- C9: getArtifact on an id absent from the artifact map and getLayer on an
id absent from the layer registry both return an absent result; in this
embedding both are read-only functions of the state, so neither mutates it. -/
theorem missing_id_lookups_absent (s : StoreState) (id lid : String)
    (h1 : id ∉ s.artifacts.map Prod.fst) (h2 : lid ∉ s.layers.map Prod.fst) :
    getArtifact s id = none ∧ getLayer s lid = none :=
  ⟨mapGet_eq_none_of_not_mem _ _ h1, mapGet_eq_none_of_not_mem _ _ h2⟩

/-- Witness for C9 on the fresh store and the id "ghost". -/
theorem missing_id_lookups_absent_witness :
    getArtifact emptyStore "ghost" = none ∧ getLayer emptyStore "ghost" = none :=
  missing_id_lookups_absent emptyStore "ghost" "ghost"
    (by simp [emptyStore]) (by simp [emptyStore])

/-! ### C8: create round-trip -/

/-- C8: the artifact returned by createArtifact is retrievable unchanged via
getArtifact at the assigned id, and is returned by getArtifactsInBounds for
every bounds whose closed rectangle contains its (lng, lat) point. -/
theorem createArtifact_roundtrip (s : StoreState) (ins : InsertArtifact)
    (id now : String) (b : Bounds)
    (hw : b.west ≤ ins.lng) (he : ins.lng ≤ b.east)
    (hs : b.south ≤ ins.lat) (hn : ins.lat ≤ b.north) :
    getArtifact (createArtifact s ins id now).2 id =
      some (createArtifact s ins id now).1 ∧
    (createArtifact s ins id now).1 ∈
      getArtifactsInBounds (createArtifact s ins id now).2 b none := by
  constructor
  · exact mapGet_mapSet_self _ _ _
  · show (createArtifact s ins id now).1 ∈ applyLayerFilter none _
    simp only [applyLayerFilter]
    rw [List.mem_map]
    refine ⟨mkItem (createArtifact s ins id now).1, ?_, rfl⟩
    rw [searchBBox, mem_filterP]
    constructor
    · show mkItem _ ∈ s.spatialIndex ++ [mkItem _]
      simp only [List.mem_append, List.mem_singleton]
      exact Or.inr rfl
    · exact ⟨he, hn, hw, hs⟩

/-- Witness for C8: the origin insert is found again by id and appears in the
bounds query over the square [-1, 1] × [-1, 1]. -/
theorem createArtifact_roundtrip_witness :
    getArtifact (createArtifact emptyStore insC8 "id-2" "2024-06-01T00:00:00.000Z").2
      "id-2" = some (createArtifact emptyStore insC8 "id-2" "2024-06-01T00:00:00.000Z").1 ∧
    (createArtifact emptyStore insC8 "id-2" "2024-06-01T00:00:00.000Z").1 ∈
      getArtifactsInBounds
        (createArtifact emptyStore insC8 "id-2" "2024-06-01T00:00:00.000Z").2
        { north := 1, south := -1, east := 1, west := -1 } none :=
  createArtifact_roundtrip emptyStore insC8 "id-2" "2024-06-01T00:00:00.000Z"
    { north := 1, south := -1, east := 1, west := -1 }
    (by norm_num [insC8]) (by norm_num [insC8]) (by norm_num [insC8])
    (by norm_num [insC8])

/-! ### C5: deleteLayer cascade -/

theorem filterP_filterP {α : Type} (p q : α → Prop) [DecidablePred p]
    [DecidablePred q] (l : List α) :
    filterP p (filterP q l) = filterP (fun a => q a ∧ p a) l := by
  induction l with
  | nil => simp [filterP]
  | cons b t ih =>
    by_cases hq : q b
    · by_cases hp : p b
      · simp [filterP, hq, hp, ih]
      · simp [filterP, hq, hp, ih]
    · have : ¬ (q b ∧ p b) := fun h => hq h.1
      simp [filterP, hq, this, ih]

theorem filterP_congr {α : Type} {p q : α → Prop} [DecidablePred p]
    [DecidablePred q] (l : List α) (h : ∀ a, p a ↔ q a) :
    filterP p l = filterP q l := by
  induction l with
  | nil => rfl
  | cons b t ih =>
    by_cases hp : p b
    · simp [filterP, hp, (h b).mp hp, ih]
    · have : ¬ q b := fun hq => hp ((h b).mpr hq)
      simp [filterP, hp, this, ih]

theorem searchBBox_map_artifact (l : List (String × Artifact))
    (minX minY maxX maxY : ℝ) :
    (searchBBox (buildSpatialIndexItems l) minX minY maxX maxY).map
      (fun it => it.artifact) =
    filterP (fun a => a.lng ≤ maxX ∧ a.lat ≤ maxY ∧ minX ≤ a.lng ∧ minY ≤ a.lat)
      (l.map Prod.snd) := by
  rw [searchBBox, buildSpatialIndexItems, filterP_map, List.map_map]
  exact map_filterP Prod.snd _ _ _ (fun a => Iff.rfl)

/-- Invariants a reachable `MemStorage` state satisfies: the spatial index
holds exactly the point items of the artifact map, and the layer registry,
being a JS Map, has no duplicate keys. -/
def WellFormed (s : StoreState) : Prop :=
  s.spatialIndex = buildSpatialIndexItems s.artifacts ∧
  (s.layers.map Prod.fst).Nodup

/-- C5: deleteLayer x removes every artifact of layer x from getAllArtifacts
and, because the spatial index is rebuilt from the remaining artifacts, from
every getArtifactsInBounds query; artifacts of other layers survive both
queries unchanged; the layer record x is removed and other records are kept. -/
theorem deleteLayer_cascades (s : StoreState) (x : String) (hwf : WellFormed s) :
    (∀ a ∈ getAllArtifacts (deleteLayer s x) none, a.layer ≠ x) ∧
    (∀ b : Bounds, ∀ a ∈ getArtifactsInBounds (deleteLayer s x) b none, a.layer ≠ x) ∧
    getAllArtifacts (deleteLayer s x) none =
      filterP (fun a => ¬ a.layer = x) (getAllArtifacts s none) ∧
    (∀ b : Bounds, getArtifactsInBounds (deleteLayer s x) b none =
      filterP (fun a => ¬ a.layer = x) (getArtifactsInBounds s b none)) ∧
    getLayer (deleteLayer s x) x = none ∧
    (∀ y, y ≠ x → getLayer (deleteLayer s x) y = getLayer s y) := by
  obtain ⟨hidx, hnd⟩ := hwf
  have hall : getAllArtifacts (deleteLayer s x) none =
      filterP (fun a => ¬ a.layer = x) (getAllArtifacts s none) := by
    show (filterP (fun e : String × Artifact => ¬ e.2.layer = x) s.artifacts).map
        Prod.snd =
      filterP (fun a => ¬ a.layer = x) (s.artifacts.map Prod.snd)
    exact map_filterP Prod.snd _ _ _ (fun a => Iff.rfl)
  have hb : ∀ b : Bounds, getArtifactsInBounds (deleteLayer s x) b none =
      filterP (fun a => ¬ a.layer = x) (getArtifactsInBounds s b none) := by
    intro b
    show ((searchBBox
        (buildSpatialIndexItems
          (filterP (fun e : String × Artifact => ¬ e.2.layer = x) s.artifacts))
        b.west b.south b.east b.north).map (fun it => it.artifact)) =
      filterP (fun a => ¬ a.layer = x)
        ((searchBBox s.spatialIndex b.west b.south b.east b.north).map
          (fun it => it.artifact))
    rw [hidx, searchBBox_map_artifact, searchBBox_map_artifact]
    rw [map_filterP Prod.snd
      (fun e : String × Artifact => ¬ e.2.layer = x) (fun a => ¬ a.layer = x) _
      (fun a => Iff.rfl)]
    rw [filterP_filterP, filterP_filterP]
    exact filterP_congr _
      (fun a => ⟨fun h => ⟨h.2, h.1⟩, fun h => ⟨h.2, h.1⟩⟩)
  refine ⟨?_, ?_, hall, hb, ?_, ?_⟩
  · intro a ha
    rw [hall, mem_filterP] at ha
    exact ha.2
  · intro b a ha
    rw [hb b, mem_filterP] at ha
    exact ha.2
  · exact mapGet_mapDelete_self _ _ hnd
  · intro y hy
    exact mapGet_mapDelete_of_ne _ _ _ hy

/-- A second insert input in a different layer, for the C5 witness store. -/
def insOtherLayer : InsertArtifact :=
  { name := "Junction Pole", category := "pole", layer := some "other-layer",
    lat := 10, lng := 20, description := none, metadata := none, createdAt := none }

/-- A store holding one artifact in layer "utility-poc" and one in "other-layer". -/
def demoTwoLayerStore : StoreState :=
  (createArtifact (createArtifact emptyStore insC6 "w1" "t1").2 insOtherLayer
    "w2" "t2").2

/-- Witness for C5: deleting layer "utility-poc" on the two-layer demo store. -/
theorem deleteLayer_cascades_witness :
    (∀ a ∈ getAllArtifacts (deleteLayer demoTwoLayerStore "utility-poc") none,
      a.layer ≠ "utility-poc") ∧
    (∀ b : Bounds,
      ∀ a ∈ getArtifactsInBounds (deleteLayer demoTwoLayerStore "utility-poc") b none,
        a.layer ≠ "utility-poc") ∧
    getAllArtifacts (deleteLayer demoTwoLayerStore "utility-poc") none =
      filterP (fun a => ¬ a.layer = "utility-poc")
        (getAllArtifacts demoTwoLayerStore none) ∧
    (∀ b : Bounds,
      getArtifactsInBounds (deleteLayer demoTwoLayerStore "utility-poc") b none =
        filterP (fun a => ¬ a.layer = "utility-poc")
          (getArtifactsInBounds demoTwoLayerStore b none)) ∧
    getLayer (deleteLayer demoTwoLayerStore "utility-poc") "utility-poc" = none ∧
    (∀ y, y ≠ "utility-poc" →
      getLayer (deleteLayer demoTwoLayerStore "utility-poc") y =
        getLayer demoTwoLayerStore y) :=
  deleteLayer_cascades demoTwoLayerStore "utility-poc" ⟨rfl, by decide⟩

/-! ### Grid machinery for the viewport clusterer -/

/-- Contents of a cell of the grid map, `[]` when the key is absent. -/
def lookupGrid : List (String × List Artifact) → String → List Artifact
  | [], _ => []
  | (k', v) :: rest, k => if k' = k then v else lookupGrid rest k

theorem lookupGrid_gridAdd (g : List (String × List Artifact)) (k' : String)
    (a : Artifact) (k : String) :
    lookupGrid (gridAdd g k' a) k =
      if k' = k then lookupGrid g k ++ [a] else lookupGrid g k := by
  induction g with
  | nil =>
    by_cases h : k' = k <;> simp [gridAdd, lookupGrid, h]
  | cons c t ih =>
    by_cases hc : c.1 = k'
    · by_cases hk : c.1 = k
      · have : k' = k := hc ▸ hk
        simp [gridAdd, hc, lookupGrid, hk, this]
      · have : ¬ (k' = k) := fun h => hk (hc.symm ▸ h : c.1 = k)
        simp [gridAdd, hc, lookupGrid, hk, this]
    · by_cases hk : c.1 = k
      · have hkk' : ¬ (k = k') := fun h => hc (hk.trans h)
        have hk'k : ¬ (k' = k) := fun h => hkk' h.symm
        simp [gridAdd, hc, lookupGrid, hk, hkk', hk'k]
      · simp [gridAdd, hc, lookupGrid, hk, ih]

theorem lookupGrid_foldl (gs : ℝ) (as : List Artifact)
    (g : List (String × List Artifact)) (k : String) :
    lookupGrid (as.foldl (fun g a => gridAdd g (cellKey gs a) a) g) k =
      lookupGrid g k ++ filterP (fun a => cellKey gs a = k) as := by
  induction as generalizing g with
  | nil => simp [filterP]
  | cons a t ih =>
    rw [List.foldl_cons, ih, lookupGrid_gridAdd]
    by_cases h : cellKey gs a = k
    · rw [if_pos h]
      simp [filterP, h]
    · rw [if_neg h]
      simp [filterP, h]

theorem lookupGrid_buildGrid (gs : ℝ) (as : List Artifact) (k : String) :
    lookupGrid (buildGrid gs as) k = filterP (fun a => cellKey gs a = k) as := by
  rw [buildGrid, lookupGrid_foldl]
  rfl

theorem gridKeys_gridAdd (g : List (String × List Artifact)) (k : String)
    (a : Artifact) :
    (gridAdd g k a).map Prod.fst =
      if k ∈ g.map Prod.fst then g.map Prod.fst else g.map Prod.fst ++ [k] := by
  induction g with
  | nil => simp [gridAdd]
  | cons c t ih =>
    by_cases hc : c.1 = k
    · simp [gridAdd, hc]
    · have : ¬ (k = c.1) := fun h => hc h.symm
      by_cases hm : k ∈ t.map Prod.fst <;>
        simp [gridAdd, hc, ih, hm, this]

theorem nodup_gridKeys_gridAdd (g : List (String × List Artifact)) (k : String)
    (a : Artifact) (h : (g.map Prod.fst).Nodup) :
    ((gridAdd g k a).map Prod.fst).Nodup := by
  rw [gridKeys_gridAdd]
  by_cases hm : k ∈ g.map Prod.fst
  · rwa [if_pos hm]
  · rw [if_neg hm]
    rw [List.nodup_append]
    exact ⟨h, List.nodup_singleton k, by simpa using hm⟩

theorem nodup_gridKeys_foldl (gs : ℝ) (as : List Artifact)
    (g : List (String × List Artifact)) (h : (g.map Prod.fst).Nodup) :
    (((as.foldl (fun g a => gridAdd g (cellKey gs a) a) g)).map Prod.fst).Nodup := by
  induction as generalizing g with
  | nil => exact h
  | cons a t ih =>
    rw [List.foldl_cons]
    exact ih _ (nodup_gridKeys_gridAdd g (cellKey gs a) a h)

theorem nodup_gridKeys_buildGrid (gs : ℝ) (as : List Artifact) :
    ((buildGrid gs as).map Prod.fst).Nodup :=
  nodup_gridKeys_foldl gs as [] (by simp)

theorem lookupGrid_eq_of_mem {g : List (String × List Artifact)}
    (hnd : (g.map Prod.fst).Nodup) {k : String} {v : List Artifact}
    (h : (k, v) ∈ g) : lookupGrid g k = v := by
  induction g with
  | nil => cases h
  | cons c t ih =>
    rw [List.map_cons, List.nodup_cons] at hnd
    rcases List.mem_cons.mp h with h1 | h2
    · rw [← h1]
      simp [lookupGrid]
    · have : ¬ (c.1 = k) := by
        intro hk
        exact hnd.1 (hk ▸ (List.mem_map.mpr ⟨(k, v), h2, rfl⟩))
      simp only [lookupGrid]
      rw [if_neg this]
      exact ih hnd.2 h2

theorem mem_of_lookupGrid_ne_nil (g : List (String × List Artifact)) (k : String)
    (h : lookupGrid g k ≠ []) : (k, lookupGrid g k) ∈ g := by
  induction g with
  | nil => exact absurd rfl h
  | cons c t ih =>
    by_cases hc : c.1 = k
    · simp only [lookupGrid, if_pos hc]
      simp only [lookupGrid, if_pos hc] at h
      have hce : (k, c.2) = c := by rw [← hc]
      rw [hce]
      exact List.mem_cons_self c t
    · simp only [lookupGrid, if_neg hc]
      simp only [lookupGrid, if_neg hc] at h
      exact List.mem_cons_of_mem _ (ih h)

/-- The two components of one `grid.forEach` pass, as filters of the grid. -/
theorem splitCells_foldl (g : List (String × List Artifact))
    (cs : List ClusterData) (ss : List Artifact) :
    g.foldl
      (fun acc cell =>
        if 3 < cell.2.length then (acc.1 ++ [mkCluster cell.1 cell.2], acc.2)
        else (acc.1, acc.2 ++ cell.2))
      (cs, ss) =
    (cs ++ (filterP (fun c : String × List Artifact => 3 < c.2.length) g).map
        (fun c => mkCluster c.1 c.2),
     ss ++ ((filterP (fun c : String × List Artifact => ¬ 3 < c.2.length) g).map
        Prod.snd).flatten) := by
  induction g generalizing cs ss with
  | nil => simp [filterP]
  | cons c t ih =>
    rw [List.foldl_cons]
    by_cases hc : 3 < c.2.length
    · have : ¬ ¬ 3 < c.2.length := not_not_intro hc
      rw [if_pos hc, ih]
      simp [filterP, hc, this]
    · rw [if_neg hc, ih]
      simp [filterP, hc]

theorem splitCells_eq (g : List (String × List Artifact)) :
    splitCells g =
    ((filterP (fun c : String × List Artifact => 3 < c.2.length) g).map
        (fun c => mkCluster c.1 c.2),
     ((filterP (fun c : String × List Artifact => ¬ 3 < c.2.length) g).map
        Prod.snd).flatten) := by
  rw [splitCells, splitCells_foldl]
  simp

/-- When a low-zoom viewport response reports `truncated = false` it carries
the full cluster and single lists of the grid pass. -/
theorem viewport_untruncated (s : StoreState) (b : Bounds) (zoom : ℝ)
    (limit : Nat) (ls : Option (List String)) (hz : zoom < 13)
    (h : (getViewportData s b zoom limit ls).truncated = false) :
    getViewportData s b zoom limit ls =
      { clusters := (splitCells (buildGrid (getClusterGridSize zoom)
          (getArtifactsInBounds s b ls))).1,
        singles := (splitCells (buildGrid (getClusterGridSize zoom)
          (getArtifactsInBounds s b ls))).2,
        total := (getArtifactsInBounds s b ls).length,
        truncated := false } := by
  have hz' : ¬ (13 ≤ zoom) := not_le.mpr hz
  by_cases hcomb : limit <
      (splitCells (buildGrid (getClusterGridSize zoom)
        (getArtifactsInBounds s b ls))).1.length +
      (splitCells (buildGrid (getClusterGridSize zoom)
        (getArtifactsInBounds s b ls))).2.length
  · exfalso
    simp only [getViewportData] at h
    rw [if_neg hz', if_pos hcomb] at h
    by_cases hcl : (splitCells (buildGrid (getClusterGridSize zoom)
        (getArtifactsInBounds s b ls))).1.length ≤ limit
    · rw [if_pos hcl] at h
      simp at h
    · rw [if_neg hcl] at h
      simp at h
  · simp only [getViewportData]
    rw [if_neg hz', if_neg hcomb]

/-- C2: at zoom below 13, whenever clusters plus singles exceed the limit the
response is truncated; all clusters are kept with a prefix of singles filling
the leftover budget when they fit, and otherwise only the first `limit`
clusters survive and singles are dropped entirely. -/
theorem viewport_truncation_policy (s : StoreState) (b : Bounds) (zoom : ℝ)
    (limit : Nat) (ls : Option (List String)) (cl : List ClusterData)
    (si : List Artifact) (hz : zoom < 13)
    (hsplit : splitCells (buildGrid (getClusterGridSize zoom)
      (getArtifactsInBounds s b ls)) = (cl, si))
    (hcomb : limit < cl.length + si.length) :
    (getViewportData s b zoom limit ls).truncated = true ∧
    (cl.length ≤ limit →
      (getViewportData s b zoom limit ls).clusters = cl ∧
      (getViewportData s b zoom limit ls).singles = si.take (limit - cl.length)) ∧
    (limit < cl.length →
      (getViewportData s b zoom limit ls).clusters = cl.take limit ∧
      (getViewportData s b zoom limit ls).singles = []) := by
  have hz' : ¬ (13 ≤ zoom) := not_le.mpr hz
  simp only [getViewportData, hsplit]
  rw [if_neg hz']
  rw [if_pos hcomb]
  by_cases hcl : cl.length ≤ limit
  · rw [if_pos hcl]
    exact ⟨rfl, fun _ => ⟨rfl, rfl⟩, fun hlt => absurd hcl (not_le.mpr hlt)⟩
  · rw [if_neg hcl]
    exact ⟨rfl, fun hle => absurd hle hcl, fun _ => ⟨rfl, rfl⟩⟩

/-! ### C10: conservation of the total -/

/-- Total number of artifacts held across all grid cells. -/
def cellLenSum (g : List (String × List Artifact)) : Nat :=
  (g.map (fun c => c.2.length)).sum

theorem cellLenSum_gridAdd (g : List (String × List Artifact)) (k : String)
    (a : Artifact) : cellLenSum (gridAdd g k a) = cellLenSum g + 1 := by
  induction g with
  | nil => simp [gridAdd, cellLenSum]
  | cons c t ih =>
    by_cases hc : c.1 = k
    · simp [gridAdd, hc, cellLenSum]
      omega
    · simp [gridAdd, hc, cellLenSum] at ih ⊢
      omega

theorem cellLenSum_foldl (gs : ℝ) (as : List Artifact)
    (g : List (String × List Artifact)) :
    cellLenSum (as.foldl (fun g a => gridAdd g (cellKey gs a) a) g) =
      cellLenSum g + as.length := by
  induction as generalizing g with
  | nil => simp
  | cons a t ih =>
    rw [List.foldl_cons, ih, cellLenSum_gridAdd]
    simp
    omega

theorem cellLenSum_buildGrid (gs : ℝ) (as : List Artifact) :
    cellLenSum (buildGrid gs as) = as.length := by
  rw [buildGrid, cellLenSum_foldl]
  simp [cellLenSum]

theorem filterP_map_sum_partition {α : Type} (p : α → Prop) [DecidablePred p]
    (f : α → Nat) (l : List α) :
    ((filterP p l).map f).sum + ((filterP (fun a => ¬ p a) l).map f).sum =
      (l.map f).sum := by
  induction l with
  | nil => simp [filterP]
  | cons a t ih =>
    by_cases ha : p a
    · simp [filterP, ha] at ih ⊢
      omega
    · simp [filterP, ha] at ih ⊢
      omega

theorem splitCells_counts (g : List (String × List Artifact)) :
    ((splitCells g).1.map ClusterData.count).sum + (splitCells g).2.length =
      cellLenSum g := by
  rw [splitCells_eq]
  simp only [List.map_map]
  have h1 : (ClusterData.count ∘ fun c : String × List Artifact =>
      mkCluster c.1 c.2) = fun c : String × List Artifact => c.2.length := rfl
  rw [h1]
  have h2 : (((filterP (fun c : String × List Artifact => ¬ 3 < c.2.length) g).map
      Prod.snd).flatten).length =
      ((filterP (fun c : String × List Artifact => ¬ 3 < c.2.length) g).map
        (fun c => c.2.length)).sum := by
    rw [List.length_flatten, List.map_map]
    rfl
  rw [h2]
  exact filterP_map_sum_partition _ _ g

/-- C10: whenever a viewport response reports `truncated = false`, the sum of
the returned cluster counts plus the number of returned singles equals the
response total — every matched artifact is accounted for exactly once. -/
theorem viewport_total_conservation (s : StoreState) (b : Bounds) (zoom : ℝ)
    (limit : Nat) (ls : Option (List String))
    (h : (getViewportData s b zoom limit ls).truncated = false) :
    ((getViewportData s b zoom limit ls).clusters.map ClusterData.count).sum +
      (getViewportData s b zoom limit ls).singles.length =
      (getViewportData s b zoom limit ls).total := by
  by_cases hz : 13 ≤ zoom
  · simp only [getViewportData, if_pos hz] at h ⊢
    rw [decide_eq_false_iff_not] at h
    rw [if_neg h]
    simp
  · have hz' : zoom < 13 := not_le.mp hz
    rw [viewport_untruncated s b zoom limit ls hz' h]
    show ((splitCells (buildGrid (getClusterGridSize zoom)
        (getArtifactsInBounds s b ls))).1.map ClusterData.count).sum +
      (splitCells (buildGrid (getClusterGridSize zoom)
        (getArtifactsInBounds s b ls))).2.length =
      (getArtifactsInBounds s b ls).length
    rw [splitCells_counts, cellLenSum_buildGrid]

/-! ### A concrete clustering scenario used by the viewport witnesses -/

/-- Template for demo artifacts at given coordinates. -/
def demoArtifact (id : String) (lat lng : ℝ) : Artifact :=
  { id := id, name := "Utility Pole", category := "pole", layer := "utility-poc",
    lat := lat, lng := lng, description := none, metadata := none,
    createdAt := "2024-06-01T00:00:00.000Z" }

/-- Demo artifact 1 of 4 sharing the grid cell 0:0 at zoom 5. -/
def dc1 : Artifact := demoArtifact "c1" 1 1

/-- Demo artifact 2 of 4 sharing the grid cell 0:0 at zoom 5. -/
def dc2 : Artifact := demoArtifact "c2" 1 1

/-- Demo artifact 3 of 4 sharing the grid cell 0:0 at zoom 5. -/
def dc3 : Artifact := demoArtifact "c3" 1 1

/-- Demo artifact 4 of 4 sharing the grid cell 0:0 at zoom 5. -/
def dc4 : Artifact := demoArtifact "c4" 1 1

/-- Demo artifact isolated in grid cell 15:5 at zoom 5. -/
def dc5 : Artifact := demoArtifact "c5" 10 30

/-- A store holding the five demo artifacts. -/
def demoClusterStore : StoreState :=
  { artifacts := [("c1", dc1), ("c2", dc2), ("c3", dc3), ("c4", dc4), ("c5", dc5)],
    spatialIndex := [mkItem dc1, mkItem dc2, mkItem dc3, mkItem dc4, mkItem dc5],
    layers := emptyStore.layers }

/-- The whole-world bounds. -/
def worldBounds : Bounds :=
  { north := 90, south := -90, east := 180, west := -180 }

theorem demo_inBounds :
    getArtifactsInBounds demoClusterStore worldBounds none =
      [dc1, dc2, dc3, dc4, dc5] := by
  norm_num [getArtifactsInBounds, applyLayerFilter, searchBBox, filterP,
    demoClusterStore, worldBounds, mkItem, dc1, dc2, dc3, dc4, dc5, demoArtifact]

theorem demo_gridSize : getClusterGridSize 5 = 2 := by
  norm_num [getClusterGridSize]

theorem demo_cellKey_low (i : String) : cellKey 2 (demoArtifact i 1 1) = "0:0" := by
  rw [cellKey]
  norm_num [demoArtifact]
  rfl

theorem demo_cellKey_high : cellKey 2 dc5 = "15:5" := by
  rw [cellKey]
  norm_num [dc5, demoArtifact]
  rfl

theorem demo_grid :
    buildGrid 2 [dc1, dc2, dc3, dc4, dc5] =
      [("0:0", [dc1, dc2, dc3, dc4]), ("15:5", [dc5])] := by
  simp only [buildGrid, List.foldl_cons, List.foldl_nil, dc1, dc2, dc3, dc4,
    demo_cellKey_low, demo_cellKey_high]
  simp [gridAdd]

theorem demo_split :
    splitCells (buildGrid 2 [dc1, dc2, dc3, dc4, dc5]) =
      ([mkCluster "0:0" [dc1, dc2, dc3, dc4]], [dc5]) := by
  rw [demo_grid, splitCells_eq]
  simp [filterP]

theorem demo_viewport_untruncated_eval :
    (getViewportData demoClusterStore worldBounds 5 1000 none).truncated = false := by
  simp only [getViewportData, demo_inBounds, demo_gridSize, demo_split]
  rw [if_neg (by norm_num : ¬ (13:ℝ) ≤ 5)]
  rw [if_neg (by norm_num : ¬ (1000 < ([mkCluster "0:0" [dc1, dc2, dc3, dc4]],
    [dc5]).1.length + ([mkCluster "0:0" [dc1, dc2, dc3, dc4]], [dc5]).2.length))]

/-- Witness for C10: on the five-artifact demo store at zoom 5 with limit
1000 the response is untruncated and conserves the total. -/
theorem viewport_total_conservation_witness :
    ((getViewportData demoClusterStore worldBounds 5 1000 none).clusters.map
        ClusterData.count).sum +
      (getViewportData demoClusterStore worldBounds 5 1000 none).singles.length =
      (getViewportData demoClusterStore worldBounds 5 1000 none).total :=
  viewport_total_conservation demoClusterStore worldBounds 5 1000 none
    demo_viewport_untruncated_eval

/-- Witness for C2: same store at zoom 5 with limit 1 — one cluster and one
single exceed the limit, the cluster is kept and the single is dropped. -/
theorem viewport_truncation_policy_witness :
    (getViewportData demoClusterStore worldBounds 5 1 none).truncated = true ∧
    ([mkCluster "0:0" [dc1, dc2, dc3, dc4]].length ≤ 1 →
      (getViewportData demoClusterStore worldBounds 5 1 none).clusters =
        [mkCluster "0:0" [dc1, dc2, dc3, dc4]] ∧
      (getViewportData demoClusterStore worldBounds 5 1 none).singles =
        [dc5].take (1 - [mkCluster "0:0" [dc1, dc2, dc3, dc4]].length)) ∧
    (1 < [mkCluster "0:0" [dc1, dc2, dc3, dc4]].length →
      (getViewportData demoClusterStore worldBounds 5 1 none).clusters =
        [mkCluster "0:0" [dc1, dc2, dc3, dc4]].take 1 ∧
      (getViewportData demoClusterStore worldBounds 5 1 none).singles = []) :=
  viewport_truncation_policy demoClusterStore worldBounds 5 1 none
    [mkCluster "0:0" [dc1, dc2, dc3, dc4]] [dc5] (by norm_num)
    (by rw [demo_gridSize, demo_inBounds, demo_split]) (by norm_num)

/-! ### Injectivity of the decimal cell-key encoding

The grid keys the cells by the template string `cellX:cellY`; these lemmas
show that distinct integer pairs always produce distinct key strings, so a
cell of the string-keyed JS map is exactly a floor-pair cell. -/

/-- Decimal value of a digit character. -/
def digitVal (c : Char) : Nat := c.toNat - '0'.toNat

/-- Value of a most-significant-first digit character list. -/
def digitsVal : List Char → Nat
  | [] => 0
  | c :: cs => digitVal c * 10 ^ cs.length + digitsVal cs

theorem digitVal_digitChar (d : Nat) (h : d < 10) :
    digitVal (Nat.digitChar d) = d := by
  interval_cases d <;> rfl

theorem digitChar_isDigit (d : Nat) (h : d < 10) :
    Nat.digitChar d ∈ ['0', '1', '2', '3', '4', '5', '6', '7', '8', '9'] := by
  interval_cases d <;> decide

theorem toDigitsCore_val (fuel : Nat) :
    ∀ (n : Nat), n < 10 ^ fuel → ∀ (ds : List Char),
      digitsVal (Nat.toDigitsCore 10 fuel n ds) =
        n * 10 ^ ds.length + digitsVal ds := by
  induction fuel with
  | zero =>
    intro n hn ds
    have : n = 0 := by simpa using hn
    subst this
    simp [Nat.toDigitsCore]
  | succ f ih =>
    intro n hn ds
    show digitsVal
      (if n / 10 = 0 then Nat.digitChar (n % 10) :: ds
       else Nat.toDigitsCore 10 f (n / 10) (Nat.digitChar (n % 10) :: ds)) = _
    have hmodlt : n % 10 < 10 := Nat.mod_lt _ (by norm_num)
    by_cases h : n / 10 = 0
    · rw [if_pos h]
      simp only [digitsVal]
      rw [digitVal_digitChar _ hmodlt, show n % 10 = n from by omega]
    · rw [if_neg h]
      have hdiv : n / 10 < 10 ^ f := by
        rw [Nat.div_lt_iff_lt_mul (by norm_num)]
        calc n < 10 ^ (f + 1) := hn
        _ = 10 ^ f * 10 := by ring
      rw [ih (n / 10) hdiv]
      simp only [digitsVal, List.length_cons, digitVal_digitChar _ hmodlt]
      have hq : 10 * (n / 10) + n % 10 = n := Nat.div_add_mod n 10
      have hpow : (10 : Nat) ^ (ds.length + 1) = 10 ^ ds.length * 10 := by ring
      calc n / 10 * 10 ^ (ds.length + 1) + (n % 10 * 10 ^ ds.length + digitsVal ds)
          = (10 * (n / 10) + n % 10) * 10 ^ ds.length + digitsVal ds := by
            rw [hpow]; ring
        _ = n * 10 ^ ds.length + digitsVal ds := by rw [hq]

theorem digitsVal_toDigits (n : Nat) : digitsVal (Nat.toDigits 10 n) = n := by
  have hb : n < 10 ^ (n + 1) := by
    calc n < 2 ^ n := Nat.lt_two_pow n
    _ ≤ 10 ^ n := Nat.pow_le_pow_left (by norm_num) n
    _ < 10 ^ (n + 1) := Nat.pow_lt_pow_right (by norm_num) (Nat.lt_succ_self n)
  rw [Nat.toDigits, toDigitsCore_val (n + 1) n hb []]
  simp [digitsVal]

theorem natRepr_injective {a b : Nat} (h : Nat.repr a = Nat.repr b) : a = b := by
  have hdata : Nat.toDigits 10 a = Nat.toDigits 10 b := congrArg String.data h
  have := congrArg digitsVal hdata
  rwa [digitsVal_toDigits, digitsVal_toDigits] at this

theorem toDigitsCore_chars (fuel : Nat) :
    ∀ (n : Nat) (ds : List Char) (c : Char),
      c ∈ Nat.toDigitsCore 10 fuel n ds →
      c ∈ ['0', '1', '2', '3', '4', '5', '6', '7', '8', '9'] ∨ c ∈ ds := by
  induction fuel with
  | zero =>
    intro n ds c hc
    exact Or.inr hc
  | succ f ih =>
    intro n ds c hc
    have hmodlt : n % 10 < 10 := Nat.mod_lt _ (by norm_num)
    rw [show Nat.toDigitsCore 10 (f + 1) n ds =
      (if n / 10 = 0 then Nat.digitChar (n % 10) :: ds
       else Nat.toDigitsCore 10 f (n / 10) (Nat.digitChar (n % 10) :: ds)) from rfl]
      at hc
    by_cases h : n / 10 = 0
    · rw [if_pos h] at hc
      rcases List.mem_cons.mp hc with h1 | h2
      · exact Or.inl (h1 ▸ digitChar_isDigit _ hmodlt)
      · exact Or.inr h2
    · rw [if_neg h] at hc
      rcases ih _ _ _ hc with h1 | h2
      · exact Or.inl h1
      · rcases List.mem_cons.mp h2 with h3 | h4
        · exact Or.inl (h3 ▸ digitChar_isDigit _ hmodlt)
        · exact Or.inr h4

theorem toDigits_chars (n : Nat) (c : Char) (hc : c ∈ Nat.toDigits 10 n) :
    c ∈ ['0', '1', '2', '3', '4', '5', '6', '7', '8', '9'] :=
  (toDigitsCore_chars (n + 1) n [] c hc).resolve_right (by simp)

theorem dash_not_mem_toDigits (n : Nat) : '-' ∉ Nat.toDigits 10 n := by
  intro h
  have := toDigits_chars n '-' h
  simp at this

theorem colon_not_mem_toDigits (n : Nat) : ':' ∉ Nat.toDigits 10 n := by
  intro h
  have := toDigits_chars n ':' h
  simp at this

theorem intToString_ofNat_data (m : Nat) :
    (toString (Int.ofNat m)).data = Nat.toDigits 10 m := rfl

theorem intToString_negSucc_data (m : Nat) :
    (toString (Int.negSucc m)).data = '-' :: Nat.toDigits 10 (m + 1) := rfl

theorem stringData_inj {a b : String} (h : a.data = b.data) : a = b := by
  cases a
  cases b
  exact congrArg String.mk h

theorem colon_not_mem_intToString (x : ℤ) : ':' ∉ (toString x).data := by
  cases x with
  | ofNat m =>
    rw [intToString_ofNat_data]
    exact colon_not_mem_toDigits m
  | negSucc m =>
    rw [intToString_negSucc_data]
    intro h
    rcases List.mem_cons.mp h with h1 | h2
    · exact absurd h1 (by decide)
    · exact colon_not_mem_toDigits _ h2

theorem intToString_injective {x y : ℤ} (h : toString x = toString y) : x = y := by
  have hdata := congrArg String.data h
  cases x with
  | ofNat a =>
    cases y with
    | ofNat b =>
      rw [intToString_ofNat_data, intToString_ofNat_data] at hdata
      have : a = b := by
        have hrepr : Nat.repr a = Nat.repr b := by
          show (Nat.toDigits 10 a).asString = (Nat.toDigits 10 b).asString
          rw [hdata]
        exact natRepr_injective hrepr
      rw [this]
    | negSucc b =>
      rw [intToString_ofNat_data, intToString_negSucc_data] at hdata
      exfalso
      apply dash_not_mem_toDigits a
      rw [hdata]
      exact List.mem_cons_self _ _
  | negSucc a =>
    cases y with
    | ofNat b =>
      rw [intToString_negSucc_data, intToString_ofNat_data] at hdata
      exfalso
      apply dash_not_mem_toDigits b
      rw [← hdata]
      exact List.mem_cons_self _ _
    | negSucc b =>
      rw [intToString_negSucc_data, intToString_negSucc_data] at hdata
      have htail : Nat.toDigits 10 (a + 1) = Nat.toDigits 10 (b + 1) :=
        List.tail_eq_of_cons_eq hdata
      have : a + 1 = b + 1 := by
        apply natRepr_injective
        show (Nat.toDigits 10 (a + 1)).asString = (Nat.toDigits 10 (b + 1)).asString
        rw [htail]
      have : a = b := by omega
      rw [this]

theorem append_colon_inj (l₁ : List Char) :
    ∀ (l₂ : List Char) (m₁ m₂ : List Char), ':' ∉ l₁ → ':' ∉ l₂ →
      l₁ ++ ':' :: m₁ = l₂ ++ ':' :: m₂ → l₁ = l₂ ∧ m₁ = m₂ := by
  induction l₁ with
  | nil =>
    intro l₂ m₁ m₂ _ h2 h
    cases l₂ with
    | nil => simpa using h
    | cons c t =>
      exfalso
      simp only [List.nil_append, List.cons_append, List.cons.injEq] at h
      exact h2 (h.1 ▸ List.mem_cons_self _ _)
  | cons c t ih =>
    intro l₂ m₁ m₂ h1 h2 h
    cases l₂ with
    | nil =>
      exfalso
      simp only [List.nil_append, List.cons_append, List.cons.injEq] at h
      exact h1 (h.1.symm ▸ List.mem_cons_self _ _)
    | cons d u =>
      simp only [List.cons_append, List.cons.injEq] at h
      have h1' : ':' ∉ t := fun hm => h1 (List.mem_cons_of_mem _ hm)
      have h2' : ':' ∉ u := fun hm => h2 (List.mem_cons_of_mem _ hm)
      obtain ⟨hteq, hmeq⟩ := ih u m₁ m₂ h1' h2' h.2
      exact ⟨by rw [h.1, hteq], hmeq⟩

/-- Distinct integer pairs produce distinct `cellX:cellY` key strings. -/
theorem intPairKey_injective {x₁ y₁ x₂ y₂ : ℤ}
    (h : toString x₁ ++ ":" ++ toString y₁ = toString x₂ ++ ":" ++ toString y₂) :
    x₁ = x₂ ∧ y₁ = y₂ := by
  have hdata := congrArg String.data h
  rw [String.data_append, String.data_append, String.data_append,
    String.data_append] at hdata
  have hdata' : (toString x₁).data ++ ':' :: (toString y₁).data =
      (toString x₂).data ++ ':' :: (toString y₂).data := by
    simpa using hdata
  obtain ⟨hx, hy⟩ := append_colon_inj _ _ _ _
    (colon_not_mem_intToString x₁) (colon_not_mem_intToString x₂) hdata'
  exact ⟨intToString_injective (stringData_inj hx),
    intToString_injective (stringData_inj hy)⟩

/-! ### C1: the grid clustering law -/

/-- The matched artifacts the claim assigns to the grid cell of floor pair
(cx, cy): those whose floored coordinates over the grid size equal the pair. -/
noncomputable def cellMembers (s : StoreState) (b : Bounds) (zoom : ℝ)
    (ls : Option (List String)) (cx cy : ℤ) : List Artifact :=
  filterP
    (fun a => ⌊a.lng / getClusterGridSize zoom⌋ = cx ∧
      ⌊a.lat / getClusterGridSize zoom⌋ = cy)
    (getArtifactsInBounds s b ls)

theorem clusterPrefix_cancel {a b : String}
    (h : "cluster-" ++ a = "cluster-" ++ b) : a = b := by
  have hd := congrArg String.data h
  rw [String.data_append, String.data_append] at hd
  exact stringData_inj (List.append_cancel_left hd)

theorem cellMembers_eq_filter_key (s : StoreState) (b : Bounds) (zoom : ℝ)
    (ls : Option (List String)) (cx cy : ℤ) :
    cellMembers s b zoom ls cx cy =
      filterP (fun a => cellKey (getClusterGridSize zoom) a =
        toString cx ++ ":" ++ toString cy) (getArtifactsInBounds s b ls) := by
  apply filterP_congr
  intro a
  constructor
  · rintro ⟨h1, h2⟩
    rw [cellKey, h1, h2]
  · intro h
    rw [cellKey] at h
    exact intPairKey_injective h

/-- C1: at zoom below 13, the grid size follows the zoom table; each matched
artifact is assigned to the cell keyed by `floor(lng/gridSize):floor(lat/gridSize)`;
in an untruncated response, every cell of more than 3 members yields exactly
one cluster whose id is `cluster-` plus the cell key, whose lat/lng are the
member means and whose count is the member count, while every cell of at most
3 members puts each member in singles and yields no cluster. -/
theorem viewport_clustering (s : StoreState) (b : Bounds) (zoom : ℝ)
    (limit : Nat) (ls : Option (List String)) (hz : zoom < 13)
    (hnt : (getViewportData s b zoom limit ls).truncated = false) :
    (zoom ≤ 6 → getClusterGridSize zoom = 2) ∧
    ((7 ≤ zoom ∧ zoom ≤ 8) → getClusterGridSize zoom = 1) ∧
    ((9 ≤ zoom ∧ zoom ≤ 10) → getClusterGridSize zoom = 0.5) ∧
    ((11 ≤ zoom ∧ zoom ≤ 12) → getClusterGridSize zoom = 0.1) ∧
    (∀ a ∈ getArtifactsInBounds s b ls,
      cellKey (getClusterGridSize zoom) a =
        toString ⌊a.lng / getClusterGridSize zoom⌋ ++ ":" ++
          toString ⌊a.lat / getClusterGridSize zoom⌋) ∧
    (∀ cx cy : ℤ,
      (3 < (cellMembers s b zoom ls cx cy).length →
        ∃ c ∈ (getViewportData s b zoom limit ls).clusters,
          c.id = "cluster-" ++ (toString cx ++ ":" ++ toString cy) ∧
          c.lat = sumBy Artifact.lat (cellMembers s b zoom ls cx cy) /
            (cellMembers s b zoom ls cx cy).length ∧
          c.lng = sumBy Artifact.lng (cellMembers s b zoom ls cx cy) /
            (cellMembers s b zoom ls cx cy).length ∧
          c.count = (cellMembers s b zoom ls cx cy).length ∧
          (∀ c' ∈ (getViewportData s b zoom limit ls).clusters,
            c'.id = c.id → c' = c)) ∧
      ((cellMembers s b zoom ls cx cy).length ≤ 3 →
        (∀ c ∈ (getViewportData s b zoom limit ls).clusters,
          c.id ≠ "cluster-" ++ (toString cx ++ ":" ++ toString cy)) ∧
        (∀ a ∈ cellMembers s b zoom ls cx cy,
          a ∈ (getViewportData s b zoom limit ls).singles))) := by
  have htable1 : zoom ≤ 6 → getClusterGridSize zoom = 2 := fun h => by
    rw [getClusterGridSize, if_pos h]
  have htable2 : (7 ≤ zoom ∧ zoom ≤ 8) → getClusterGridSize zoom = 1 :=
    fun ⟨h7, h8⟩ => by
      rw [getClusterGridSize, if_neg (by linarith), if_pos h8]
  have htable3 : (9 ≤ zoom ∧ zoom ≤ 10) → getClusterGridSize zoom = 0.5 :=
    fun ⟨h9, h10⟩ => by
      rw [getClusterGridSize, if_neg (by linarith), if_neg (by linarith), if_pos h10]
  have htable4 : (11 ≤ zoom ∧ zoom ≤ 12) → getClusterGridSize zoom = 0.1 :=
    fun ⟨h11, h12⟩ => by
      rw [getClusterGridSize, if_neg (by linarith), if_neg (by linarith),
        if_neg (by linarith), if_pos h12]
  refine ⟨htable1, htable2, htable3, htable4, fun a _ => rfl, fun cx cy => ?_⟩
  have hr := viewport_untruncated s b zoom limit ls hz hnt
  set gs := getClusterGridSize zoom with hgs
  set arts := getArtifactsInBounds s b ls with harts
  set grid := buildGrid gs arts with hgrid
  have hnd : (grid.map Prod.fst).Nodup := nodup_gridKeys_buildGrid gs arts
  set key := toString cx ++ ":" ++ toString cy with hkey
  have hmem : cellMembers s b zoom ls cx cy =
      filterP (fun a => cellKey gs a = key) arts :=
    cellMembers_eq_filter_key s b zoom ls cx cy
  have hlook : lookupGrid grid key = cellMembers s b zoom ls cx cy := by
    rw [hmem, hgrid, lookupGrid_buildGrid]
  have hclusters : (getViewportData s b zoom limit ls).clusters =
      (filterP (fun c : String × List Artifact => 3 < c.2.length) grid).map
        (fun c => mkCluster c.1 c.2) := by
    rw [hr]
    show (splitCells grid).1 = _
    rw [splitCells_eq]
  have hsingles : (getViewportData s b zoom limit ls).singles =
      ((filterP (fun c : String × List Artifact => ¬ 3 < c.2.length) grid).map
        Prod.snd).flatten := by
    rw [hr]
    show (splitCells grid).2 = _
    rw [splitCells_eq]
  constructor
  · intro hbig
    have hne : cellMembers s b zoom ls cx cy ≠ [] := by
      intro hnil
      rw [hnil] at hbig
      simp at hbig
    have hcell : (key, cellMembers s b zoom ls cx cy) ∈ grid := by
      have := mem_of_lookupGrid_ne_nil grid key (by rw [hlook]; exact hne)
      rwa [hlook] at this
    have hcellBig : (key, cellMembers s b zoom ls cx cy) ∈
        filterP (fun c : String × List Artifact => 3 < c.2.length) grid :=
      mem_filterP.mpr ⟨hcell, hbig⟩
    refine ⟨mkCluster key (cellMembers s b zoom ls cx cy), ?_, rfl, rfl, rfl, rfl, ?_⟩
    · rw [hclusters]
      exact List.mem_map.mpr ⟨_, hcellBig, rfl⟩
    · intro c' hc' hid
      rw [hclusters] at hc'
      obtain ⟨⟨k', v'⟩, hkv', rfl⟩ := List.mem_map.mp hc'
      have hk' : k' = key := clusterPrefix_cancel hid
      subst hk'
      have hin : ((key, v') : String × List Artifact) ∈ grid :=
        (mem_filterP.mp hkv').1
      have hlk := lookupGrid_eq_of_mem hnd hin
      rw [hlook] at hlk
      show mkCluster key v' = mkCluster key (cellMembers s b zoom ls cx cy)
      rw [← hlk]
  · intro hsmall
    constructor
    · intro c hc hid
      rw [hclusters] at hc
      obtain ⟨⟨k', v'⟩, hkv', rfl⟩ := List.mem_map.mp hc
      have hk' : k' = key := clusterPrefix_cancel hid
      subst hk'
      obtain ⟨hin, hbig'⟩ := mem_filterP.mp hkv'
      have hlk := lookupGrid_eq_of_mem hnd hin
      rw [hlook] at hlk
      have hbig2 : 3 < v'.length := hbig'
      rw [← hlk] at hbig2
      exact absurd hbig2 (not_lt.mpr hsmall)
    · intro a ha
      have hne : cellMembers s b zoom ls cx cy ≠ [] := by
        intro hnil
        rw [hnil] at ha
        cases ha
      have hcell : (key, cellMembers s b zoom ls cx cy) ∈ grid := by
        have := mem_of_lookupGrid_ne_nil grid key (by rw [hlook]; exact hne)
        rwa [hlook] at this
      have hcellSmall : (key, cellMembers s b zoom ls cx cy) ∈
          filterP (fun c : String × List Artifact => ¬ 3 < c.2.length) grid :=
        mem_filterP.mpr ⟨hcell, not_lt.mpr hsmall⟩
      rw [hsingles]
      refine List.mem_flatten.mpr ⟨cellMembers s b zoom ls cx cy, ?_, ha⟩
      exact List.mem_map.mpr ⟨_, hcellSmall, rfl⟩

/-- Witness for C1: the clustering law instantiated on the five-artifact demo
store at zoom 5 with limit 1000. -/
theorem viewport_clustering_witness :
    ((5:ℝ) ≤ 6 → getClusterGridSize 5 = 2) ∧
    ((7 ≤ (5:ℝ) ∧ (5:ℝ) ≤ 8) → getClusterGridSize 5 = 1) ∧
    ((9 ≤ (5:ℝ) ∧ (5:ℝ) ≤ 10) → getClusterGridSize 5 = 0.5) ∧
    ((11 ≤ (5:ℝ) ∧ (5:ℝ) ≤ 12) → getClusterGridSize 5 = 0.1) ∧
    (∀ a ∈ getArtifactsInBounds demoClusterStore worldBounds none,
      cellKey (getClusterGridSize 5) a =
        toString ⌊a.lng / getClusterGridSize 5⌋ ++ ":" ++
          toString ⌊a.lat / getClusterGridSize 5⌋) ∧
    (∀ cx cy : ℤ,
      (3 < (cellMembers demoClusterStore worldBounds 5 none cx cy).length →
        ∃ c ∈ (getViewportData demoClusterStore worldBounds 5 1000 none).clusters,
          c.id = "cluster-" ++ (toString cx ++ ":" ++ toString cy) ∧
          c.lat = sumBy Artifact.lat (cellMembers demoClusterStore worldBounds 5 none cx cy) /
            (cellMembers demoClusterStore worldBounds 5 none cx cy).length ∧
          c.lng = sumBy Artifact.lng (cellMembers demoClusterStore worldBounds 5 none cx cy) /
            (cellMembers demoClusterStore worldBounds 5 none cx cy).length ∧
          c.count = (cellMembers demoClusterStore worldBounds 5 none cx cy).length ∧
          (∀ c' ∈ (getViewportData demoClusterStore worldBounds 5 1000 none).clusters,
            c'.id = c.id → c' = c)) ∧
      ((cellMembers demoClusterStore worldBounds 5 none cx cy).length ≤ 3 →
        (∀ c ∈ (getViewportData demoClusterStore worldBounds 5 1000 none).clusters,
          c.id ≠ "cluster-" ++ (toString cx ++ ":" ++ toString cy)) ∧
        (∀ a ∈ cellMembers demoClusterStore worldBounds 5 none cx cy,
          a ∈ (getViewportData demoClusterStore worldBounds 5 1000 none).singles))) :=
  viewport_clustering demoClusterStore worldBounds 5 1000 none (by norm_num)
    demo_viewport_untruncated_eval

/-! ### C3 and C4: the circle query and its bounding-box prefilter -/

theorem toRad_zero : toRad 0 = 0 := by
  rw [toRad]
  ring

theorem atan2_zero_one : atan2 0 1 = 0 := by
  rw [atan2, if_pos one_pos]
  simp [Real.arctan_zero]

/-- The haversine distance from any point to itself is zero. -/
theorem haversine_self (lat lng : ℝ) : haversineDistance lat lng lat lng = 0 := by
  rw [haversineDistance]
  simp only [sub_self, toRad_zero, zero_div, Real.sin_zero, mul_zero, zero_mul,
    add_zero, zero_add, Real.sqrt_zero, sub_zero, Real.sqrt_one, atan2_zero_one]

/-- Any two points on the pole latitude 90 are at haversine distance zero,
whatever their longitudes: `cos(toRad 90) = cos(π/2) = 0` kills the
longitude term and the latitude difference is zero. -/
theorem haversine_pole (lng1 lng2 : ℝ) : haversineDistance 90 lng1 90 lng2 = 0 := by
  rw [haversineDistance]
  have h90 : toRad 90 = Real.pi / 2 := by rw [toRad]; ring
  simp only [sub_self, toRad_zero, zero_div, Real.sin_zero, mul_zero, zero_mul,
    add_zero, zero_add, h90, Real.cos_pi_div_two, Real.sqrt_zero, sub_zero,
    Real.sqrt_one, atan2_zero_one]

/-- A pole artifact far away in longitude but at distance 0 from the pole center. -/
def artPole : Artifact := demoArtifact "pole" 90 100

/-- A store holding only the pole artifact. -/
def poleStore : StoreState :=
  { artifacts := [("pole", artPole)],
    spatialIndex := [mkItem artPole],
    layers := emptyStore.layers }

/-- Circle of radius 1 m centered at the pole point (90, 0). -/
def poleCircle : CircleSelection := { center := { lat := 90, lng := 0 }, radius := 1 }

theorem mem_of_mem_applyLayerFilter {ls : Option (List String)}
    {l : List Artifact} {a : Artifact} (h : a ∈ applyLayerFilter ls l) : a ∈ l := by
  cases ls with
  | none => exact h
  | some v =>
    rw [applyLayerFilter] at h
    by_cases hv : v.length ≠ 0
    · rw [if_pos hv] at h
      exact (mem_filterP.mp h).1
    · rwa [if_neg hv] at h

theorem poleCircle_eval : getArtifactsInCircle poleStore poleCircle none = [] := by
  simp only [getArtifactsInCircle, searchBBox]
  rw [show poleStore.spatialIndex = [mkItem artPole] from rfl]
  rw [filterP, if_neg ?hneg, filterP]
  case hneg =>
    rintro ⟨h1, -, -, -⟩
    have h1' : (100:ℝ) ≤ 0 + 1 / 111320 := h1
    norm_num at h1'
  rfl

/-- C3 counterexample: with the circle of radius 1 centered at (90, 0) — a
radius inside (0, 40075000] — the indexed point (90, 100) has haversine
distance 0 ≤ radius, i.e. lies in the true circle, yet falls outside the
bounding-box prefilter and is missed by getArtifactsInCircle: the prefilter
box is not a superset of the true circle. -/
theorem circle_prefilter_not_superset :
    haversineDistance poleCircle.center.lat poleCircle.center.lng
      artPole.lat artPole.lng ≤ poleCircle.radius ∧
    (0:ℝ) < poleCircle.radius ∧ poleCircle.radius ≤ 40075000 ∧
    artPole ∈ getAllArtifacts poleStore none ∧
    artPole ∉ getArtifactsInCircle poleStore poleCircle none := by
  refine ⟨?_, by norm_num [poleCircle], by norm_num [poleCircle], ?_, ?_⟩
  · show haversineDistance 90 0 90 100 ≤ (1:ℝ)
    rw [haversine_pole]
    norm_num
  · show artPole ∈ applyLayerFilter none (poleStore.artifacts.map Prod.snd)
    exact List.mem_singleton.mpr rfl
  · rw [poleCircle_eval]
    simp

/-- C3 (amended): what does hold is soundness — every artifact returned by
getArtifactsInCircle is at haversine distance at most the radius from the
center; the prefilter, however, is not a superset of the true circle and can
miss in-circle points (see the counterexample). -/
theorem inCircle_within_radius (s : StoreState) (c : CircleSelection)
    (ls : Option (List String)) (a : Artifact)
    (h : a ∈ getArtifactsInCircle s c ls) :
    haversineDistance c.center.lat c.center.lng a.lat a.lng ≤ c.radius := by
  simp only [getArtifactsInCircle] at h
  exact (mem_filterP.mp (mem_of_mem_applyLayerFilter h)).2

/-- An artifact at the origin. -/
def dOrigin : Artifact := demoArtifact "origin" 0 0

/-- A store holding only the origin artifact. -/
def originStore : StoreState :=
  { artifacts := [("origin", dOrigin)],
    spatialIndex := [mkItem dOrigin],
    layers := emptyStore.layers }

/-- Circle of radius 1 m centered at the origin. -/
def originCircle1 : CircleSelection := { center := { lat := 0, lng := 0 }, radius := 1 }

theorem originCircle_eval :
    getArtifactsInCircle originStore originCircle1 none = [dOrigin] := by
  simp only [getArtifactsInCircle, searchBBox]
  rw [show originStore.spatialIndex = [mkItem dOrigin] from rfl]
  rw [filterP, if_pos ?hpos, filterP]
  case hpos =>
    refine ⟨?_, ?_, ?_, ?_⟩ <;>
      show _ ≤ _ <;> norm_num [mkItem, dOrigin, demoArtifact, originCircle1]
  rw [List.map_cons, List.map_nil, filterP, if_pos ?hdist, filterP]
  case hdist =>
    show haversineDistance 0 0 dOrigin.lat dOrigin.lng ≤ (1:ℝ)
    rw [show dOrigin.lat = 0 from rfl, show dOrigin.lng = 0 from rfl, haversine_self]
    norm_num
  rfl

/-- Witness for the amended C3 at a concrete input: the origin artifact is
returned by the radius-1 circle query and its distance to the center is
indeed at most 1. -/
theorem inCircle_within_radius_witness :
    haversineDistance originCircle1.center.lat originCircle1.center.lng
      dOrigin.lat dOrigin.lng ≤ originCircle1.radius :=
  inCircle_within_radius originStore originCircle1 none dOrigin
    (by rw [originCircle_eval]; exact List.mem_singleton.mpr rfl)

/-- The exact haversine distance of one degree of latitude at the meridian:
`R * π / 180` meters — about 111,194.93 m, slightly less than 111,320. -/
theorem haversine_one_degree_north :
    haversineDistance 0 0 1 0 = 6371000 * Real.pi / 180 := by
  have hpi := Real.pi_pos
  simp only [haversineDistance]
  rw [show (1:ℝ) - 0 = 1 from by norm_num, show (0:ℝ) - 0 = 0 from by norm_num]
  rw [toRad_zero, show toRad 1 = Real.pi / 180 from by rw [toRad]; ring]
  rw [show Real.pi / 180 / 2 = Real.pi / 360 from by ring]
  set t := Real.pi / 360 with ht
  have htpos : 0 < t := by rw [ht]; positivity
  have htlt : t < Real.pi / 2 := by rw [ht]; linarith
  have htneg : -(Real.pi / 2) < t := by linarith
  have hsin_nonneg : 0 ≤ Real.sin t :=
    le_of_lt (Real.sin_pos_of_pos_of_lt_pi htpos (by linarith))
  have hcos_pos : 0 < Real.cos t := Real.cos_pos_of_mem_Ioo ⟨htneg, htlt⟩
  have h1s : 1 - Real.sin t * Real.sin t = Real.cos t * Real.cos t := by
    have h := Real.sin_sq_add_cos_sq t
    rw [pow_two, pow_two] at h
    linarith
  rw [show (0:ℝ) / 2 = 0 from by norm_num, Real.sin_zero, Real.cos_zero]
  rw [show Real.sin t * Real.sin t + 1 * Real.cos (Real.pi / 180) * (0 * 0) =
    Real.sin t * Real.sin t from by ring]
  rw [Real.sqrt_mul_self hsin_nonneg, h1s, Real.sqrt_mul_self (le_of_lt hcos_pos)]
  rw [atan2, if_pos hcos_pos, ← Real.tan_eq_sin_div_cos, Real.arctan_tan htneg htlt]
  rw [ht]
  ring

/-- An artifact one degree of latitude north of the origin. -/
def artDegreeNorth : Artifact := demoArtifact "north" 1 0

/-- A store holding only the one-degree-north artifact. -/
def northStore : StoreState :=
  { artifacts := [("north", artDegreeNorth)],
    spatialIndex := [mkItem artDegreeNorth],
    layers := emptyStore.layers }

/-- The radius putting the one-degree-north artifact exactly on the circle. -/
noncomputable def exactRadius : ℝ := 6371000 * Real.pi / 180

/-- Circle centered at the origin whose boundary passes exactly through the
one-degree-north artifact. -/
noncomputable def northCircle : CircleSelection :=
  { center := { lat := 0, lng := 0 }, radius := exactRadius }

/-- The prefilter half-width of `exactRadius` is under one degree, because
`6371000 * π < 180 * 111320`. -/
theorem exactRadius_deg_lt_one : exactRadius / 111320 < 1 := by
  rw [exactRadius]
  have hpi := Real.pi_lt_d6
  rw [div_lt_one (by norm_num)]
  nlinarith

theorem northCircle_eval : getArtifactsInCircle northStore northCircle none = [] := by
  simp only [getArtifactsInCircle, searchBBox]
  rw [show northStore.spatialIndex = [mkItem artDegreeNorth] from rfl]
  rw [filterP, if_neg ?hneg, filterP]
  case hneg =>
    rintro ⟨-, h2, -, -⟩
    have h2' : (1:ℝ) ≤ 0 + exactRadius / 111320 := h2
    have := exactRadius_deg_lt_one
    linarith
  rfl

/-- C4 counterexample: the stored artifact at (1, 0) sits at haversine
distance exactly `northCircle.radius` from the center (0, 0) of a circle with
positive radius, yet getArtifactsInCircle misses it: one degree of latitude
is 111,194.93 m under the haversine metric but the prefilter box only spans
radius/111320 < 1 degree, so the boundary artifact is excluded. -/
theorem exact_radius_artifact_missed :
    haversineDistance northCircle.center.lat northCircle.center.lng
      artDegreeNorth.lat artDegreeNorth.lng = northCircle.radius ∧
    0 < northCircle.radius ∧
    artDegreeNorth ∈ getAllArtifacts northStore none ∧
    artDegreeNorth ∉ getArtifactsInCircle northStore northCircle none := by
  refine ⟨?_, ?_, ?_, ?_⟩
  · show haversineDistance 0 0 1 0 = exactRadius
    rw [haversine_one_degree_north, exactRadius]
  · show (0:ℝ) < exactRadius
    rw [exactRadius]
    positivity
  · show artDegreeNorth ∈ applyLayerFilter none (northStore.artifacts.map Prod.snd)
    exact List.mem_singleton.mpr rfl
  · rw [northCircle_eval]
    simp

/-- C4 (amended): an indexed artifact at haversine distance exactly the
radius is included by getArtifactsInCircle provided it also lies within the
prefilter bounding box, whose half-width is radius/111320 degrees; the exact
distance comparison itself is inclusive. Without the box proviso the artifact
can be missed (see the counterexample). -/
theorem exact_radius_included (s : StoreState) (c : CircleSelection)
    (a : Artifact) (hidx : mkItem a ∈ s.spatialIndex)
    (hb1 : c.center.lng - c.radius / 111320 ≤ a.lng)
    (hb2 : a.lng ≤ c.center.lng + c.radius / 111320)
    (hb3 : c.center.lat - c.radius / 111320 ≤ a.lat)
    (hb4 : a.lat ≤ c.center.lat + c.radius / 111320)
    (hd : haversineDistance c.center.lat c.center.lng a.lat a.lng = c.radius) :
    a ∈ getArtifactsInCircle s c none := by
  simp only [getArtifactsInCircle, applyLayerFilter]
  rw [mem_filterP]
  constructor
  · rw [searchBBox]
    exact List.mem_map.mpr ⟨mkItem a,
      mem_filterP.mpr ⟨hidx, hb2, hb4, hb1, hb3⟩, rfl⟩
  · rw [hd]

/-- Witness for the amended C4: the origin artifact at distance exactly 0
from the center of a radius-0 circle lies inside the prefilter box and is
returned. -/
theorem exact_radius_included_witness :
    dOrigin ∈ getArtifactsInCircle originStore
      { center := { lat := 0, lng := 0 }, radius := 0 } none :=
  exact_radius_included originStore
    { center := { lat := 0, lng := 0 }, radius := 0 } dOrigin
    (List.mem_singleton.mpr rfl)
    (by norm_num [dOrigin, demoArtifact])
    (by norm_num [dOrigin, demoArtifact])
    (by norm_num [dOrigin, demoArtifact])
    (by norm_num [dOrigin, demoArtifact])
    (by show haversineDistance 0 0 dOrigin.lat dOrigin.lng = 0
        rw [show dOrigin.lat = 0 from rfl, show dOrigin.lng = 0 from rfl,
          haversine_self])

end MapEngine
